import Mathlib

/-!
Verification of the aerso aerodynamic composition layer.

The development shallowly embeds the crate's air-state derivation
(`src/aero.rs`), the effector composition protocol (`src/effectors.rs`)
and the reference wind models (`src/wind_models/`) over the real numbers.
The rigid-body kinematics crate (`Body`) is external to the repository and
is modelled from the spec as an abstract state record together with an
abstract stepping transition.
-/

namespace Aerso

/-- Real 3-vector, embedding the crate's `Vector3` type. -/
structure Vector3 where
  x : ℝ
  y : ℝ
  z : ℝ

/-- The zero vector. -/
def Vector3.zero : Vector3 := ⟨0, 0, 0⟩

/-- Componentwise vector addition. -/
def Vector3.add (a b : Vector3) : Vector3 := ⟨a.x + b.x, a.y + b.y, a.z + b.z⟩

/-- Componentwise vector subtraction, embedding `-` on `Vector3`. -/
def Vector3.sub (a b : Vector3) : Vector3 := ⟨a.x - b.x, a.y - b.y, a.z - b.z⟩

/-- Euclidean dot product. -/
def Vector3.dot (a b : Vector3) : ℝ := a.x * b.x + a.y * b.y + a.z * b.z

/-- Euclidean norm of a 3-vector. -/
noncomputable def Vector3.norm (v : Vector3) : ℝ := Real.sqrt (v.x ^ 2 + v.y ^ 2 + v.z ^ 2)

/-- Real 3×3 matrix given by its rows, embedding the crate's `Matrix3`. -/
structure Matrix3 where
  r1 : Vector3
  r2 : Vector3
  r3 : Vector3

/-- Matrix–vector product. -/
def Matrix3.mulVec (m : Matrix3) (v : Vector3) : Vector3 := ⟨m.r1.dot v, m.r2.dot v, m.r3.dot v⟩

/-- The identity matrix. -/
def Matrix3.id3 : Matrix3 := ⟨⟨1, 0, 0⟩, ⟨0, 1, 0⟩, ⟨0, 0, 1⟩⟩

/-- Modelled from the spec: the `Body` rigid-body type of the kinematics
crate is external to this repository.  Per the spec's interface section it
exposes `position()`, body-frame `velocity()`, body-frame `rates()` and a
rotation-matrix (direction-cosine) accessor derived from its attitude
state; here the record stores the values those accessors return. -/
structure RigidBody where
  position : Vector3
  velocity : Vector3
  dcm : Matrix3
  rates : Vector3

/-- Two-argument arctangent with the IEEE-754 `atan2` branch convention
used by Rust's `f64::atan2` (signed zeros aside, which ℝ lacks):
range `(-π, π]`, `atan2 0 0 = 0`. -/
noncomputable def atan2 (y x : ℝ) : ℝ :=
  if 0 < x then Real.arctan (y / x)
  else if x < 0 then
    (if 0 ≤ y then Real.arctan (y / x) + Real.pi else Real.arctan (y / x) - Real.pi)
  else
    (if 0 < y then Real.pi / 2 else if y < 0 then -(Real.pi / 2) else 0)

/-- The `WindModel` trait of `src/aero.rs`: `get_wind` samples the wind at a
world position; `step` advances any internal time dependence, returning the
updated model state. -/
structure WindModel (W : Type) where
  get_wind : W → Vector3 → Vector3
  step : W → ℝ → W

/-- The `DensityModel` trait of `src/aero.rs`. -/
structure DensityModel (D : Type) where
  get_density : D → Vector3 → ℝ

/-- The `AirState` record of `src/aero.rs`. -/
structure AirState where
  alpha : ℝ
  beta : ℝ
  airspeed : ℝ
  q : ℝ

/-- The `AeroBody` composite of `src/aero.rs`: a rigid body plus owned wind
and density models (the trait dictionaries are passed separately, mirroring
the Rust generics `W : WindModel`, `D : DensityModel`). -/
structure AeroBody (W D : Type) where
  body : RigidBody
  wind_model : W
  density_model : D

/-- Body-frame relative wind of `AeroBody::get_airstate` (line 114 of
`src/aero.rs`): `self.body.velocity() - Body::get_dcm(..) * current_world_wind`
with the world wind sampled at the body's current position. -/
def AeroBody.current_body_wind {W D : Type} (WI : WindModel W) (ab : AeroBody W D) : Vector3 :=
  ab.body.velocity.sub (ab.body.dcm.mulVec (WI.get_wind ab.wind_model ab.body.position))

/-- `AeroBody::get_airstate` of `src/aero.rs` (lines 110–138). -/
noncomputable def AeroBody.get_airstate {W D : Type} (WI : WindModel W) (DI : DensityModel D)
    (ab : AeroBody W D) : AirState :=
  let current_body_wind := AeroBody.current_body_wind WI ab
  let u := current_body_wind.x
  let v := current_body_wind.y
  let w := current_body_wind.z
  let u_sqd := u ^ 2
  let v_sqd := v ^ 2
  let w_sqd := w ^ 2
  let airspeed := Real.sqrt (u_sqd + v_sqd + w_sqd)
  let alpha := atan2 w u
  let beta := if airspeed ≠ 0 then Real.arcsin (v / airspeed) else 0
  let q := 0.5 * DI.get_density ab.density_model ab.body.position * airspeed ^ 2
  { alpha := alpha, beta := beta, airspeed := airspeed, q := q }

/-- **C1.** `get_airstate` computes the body-frame relative wind as the body
velocity minus the direction-cosine matrix applied to the wind sampled at
the body's current position, and with components `u` (forward, x), `v`
(lateral, y), `w` (vertical, z) of that relative wind returns
`airspeed = sqrt (u² + v² + w²)`, `alpha = atan2 w u`,
`beta = asin (v / airspeed)` when `airspeed ≠ 0` and `beta = 0` otherwise,
and `q = 0.5 * density position * airspeed²`. -/
theorem C1_get_airstate_formula {W D : Type} (WI : WindModel W) (DI : DensityModel D)
    (ab : AeroBody W D) :
    AeroBody.get_airstate WI DI ab =
      { alpha := atan2 (AeroBody.current_body_wind WI ab).z (AeroBody.current_body_wind WI ab).x
        beta :=
          if Real.sqrt ((AeroBody.current_body_wind WI ab).x ^ 2 +
              (AeroBody.current_body_wind WI ab).y ^ 2 +
              (AeroBody.current_body_wind WI ab).z ^ 2) ≠ 0 then
            Real.arcsin ((AeroBody.current_body_wind WI ab).y /
              Real.sqrt ((AeroBody.current_body_wind WI ab).x ^ 2 +
                (AeroBody.current_body_wind WI ab).y ^ 2 +
                (AeroBody.current_body_wind WI ab).z ^ 2))
          else 0
        airspeed := Real.sqrt ((AeroBody.current_body_wind WI ab).x ^ 2 +
          (AeroBody.current_body_wind WI ab).y ^ 2 +
          (AeroBody.current_body_wind WI ab).z ^ 2)
        q := 0.5 * DI.get_density ab.density_model ab.body.position *
          Real.sqrt ((AeroBody.current_body_wind WI ab).x ^ 2 +
            (AeroBody.current_body_wind WI ab).y ^ 2 +
            (AeroBody.current_body_wind WI ab).z ^ 2) ^ 2 } := rfl

/-- The relative wind is literally body velocity minus rotated sampled wind. -/
theorem current_body_wind_def {W D : Type} (WI : WindModel W) (ab : AeroBody W D) :
    AeroBody.current_body_wind WI ab =
      ab.body.velocity.sub (ab.body.dcm.mulVec (WI.get_wind ab.wind_model ab.body.position)) := rfl

/-- `ConstantWind` of `src/wind_models/constantwind.rs`: a stored wind vector. -/
structure ConstantWind where
  wind : Vector3

/-- The `WindModel` implementation for `ConstantWind`: `get_wind` returns
the stored vector regardless of position, `step` is a no-op. -/
def ConstantWind.windModel : WindModel ConstantWind :=
  { get_wind := fun m _position => m.wind
    step := fun m _delta_t => m }

/-- `StandardDensity` of `src/aero.rs`: the field-less ISA sea-level model. -/
structure StandardDensity where

/-- `StandardDensity::ISA_STANDARD_DENSITY` (1.225 kg·m⁻³). -/
def StandardDensity.ISA_STANDARD_DENSITY : ℝ := 1.225

/-- The `DensityModel` implementation for `StandardDensity`: density is the
ISA sea-level constant at every position. -/
def StandardDensity.densityModel : DensityModel StandardDensity :=
  { get_density := fun _ _position => StandardDensity.ISA_STANDARD_DENSITY }

/-- `PowerWind` of `src/wind_models/powerwind.rs`: reference speed `u_r` at
reference height `z_r`, shear exponent `alpha`, compass `bearing`. -/
structure PowerWind where
  u_r : ℝ
  z_r : ℝ
  alpha : ℝ
  bearing : ℝ

/-- `f64::to_radians`: multiply by π/180. -/
noncomputable def to_radians (x : ℝ) : ℝ := x * (Real.pi / 180)

/-- `PowerWind::get_wind` (lines 24–31 of `src/wind_models/powerwind.rs`):
`velocity = u_r * (position.z / z_r).powf(alpha)`, then decompose along the
bearing with zero vertical component.  `powf` is embedded as `Real.rpow`. -/
noncomputable def PowerWind.get_wind (m : PowerWind) (position : Vector3) : Vector3 :=
  let velocity := m.u_r * Real.rpow (position.z / m.z_r) m.alpha
  let bearing_rad := to_radians m.bearing
  ⟨velocity * Real.cos bearing_rad, velocity * Real.sin bearing_rad, 0⟩

/-- The `WindModel` implementation for `PowerWind`: `step` is a no-op. -/
noncomputable def PowerWind.windModel : WindModel PowerWind :=
  { get_wind := PowerWind.get_wind
    step := fun m _delta_t => m }

/-- `AeroBody::step` (lines 143–146 of `src/aero.rs`): advance the wind
model by `delta_t` and forward forces, torques and `delta_t` to the rigid
body's stepping operation.  The rigid body's own integrator is external to
the repository and is passed in as the abstract transition `bstep`. -/
def AeroBody.step {W D : Type} (WI : WindModel W)
    (bstep : RigidBody → List Vector3 → List Vector3 → ℝ → RigidBody)
    (ab : AeroBody W D) (forces torques : List Vector3) (delta_t : ℝ) : AeroBody W D :=
  { ab with
    wind_model := WI.step ab.wind_model delta_t
    body := bstep ab.body forces torques delta_t }

/-- `rates()` on the `AeroBody`, a pass-through to the rigid body's
body-frame rates (the `StateView` accessor). -/
def AeroBody.rates {W D : Type} (ab : AeroBody W D) : Vector3 := ab.body.rates

/-- State-passing embedding of the borrowing method
`AeroBody::get_airstate(&self)`: the method reads the wind model, the
density model and the body accessors through shared references and returns
the computed `AirState` together with the (unchanged) receiver. -/
noncomputable def AeroBody.get_airstate_call {W D : Type} (WI : WindModel W)
    (DI : DensityModel D) (ab : AeroBody W D) : AirState × AeroBody W D :=
  (AeroBody.get_airstate WI DI
      { body := ab.body, wind_model := ab.wind_model, density_model := ab.density_model },
    { body := ab.body, wind_model := ab.wind_model, density_model := ab.density_model })

/-- The `AffectedBody` of `src/effectors.rs`: an `AeroBody` plus an ordered
collection of `AeroEffect` trait objects.  Per the spec the `AeroEffect`
contract is a pure function `(airstate, rates, inputstate) → (force, torque)`,
so each effector is embedded as such a function; `I` is the control-input
type. -/
structure AffectedBody (I W D : Type) where
  body : AeroBody W D
  effectors : List (AirState → Vector3 → I → Vector3 × Vector3)

/-- The forces list built by `AffectedBody::step` (lines 19–31 of
`src/effectors.rs`): one entry per effector, in collection order, each the
force component of that effector's `get_effect` at the single air-state and
rates snapshot taken at entry. -/
noncomputable def AffectedBody.step_forces {I W D : Type} (WI : WindModel W)
    (DI : DensityModel D) (ab : AffectedBody I W D) (inputstate : I) : List Vector3 :=
  let airstate := AeroBody.get_airstate WI DI ab.body
  let rates := AeroBody.rates ab.body
  (ab.effectors.map fun e => e airstate rates inputstate).map Prod.fst

/-- The torques list built by `AffectedBody::step`: one entry per effector,
in collection order. -/
noncomputable def AffectedBody.step_torques {I W D : Type} (WI : WindModel W)
    (DI : DensityModel D) (ab : AffectedBody I W D) (inputstate : I) : List Vector3 :=
  let airstate := AeroBody.get_airstate WI DI ab.body
  let rates := AeroBody.rates ab.body
  (ab.effectors.map fun e => e airstate rates inputstate).map Prod.snd

/-- `AffectedBody::step` (lines 19–32 of `src/effectors.rs`): take one
air-state and rates snapshot, evaluate every effector on it, split the
per-effector pairs into a forces list and a torques list, and call
`AeroBody::step` with those two lists and the same `delta_t`. -/
noncomputable def AffectedBody.step {I W D : Type} (WI : WindModel W) (DI : DensityModel D)
    (bstep : RigidBody → List Vector3 → List Vector3 → ℝ → RigidBody)
    (ab : AffectedBody I W D) (delta_t : ℝ) (inputstate : I) : AffectedBody I W D :=
  let airstate := AeroBody.get_airstate WI DI ab.body
  let rates := AeroBody.rates ab.body
  let ft_pairs := ab.effectors.map fun e => e airstate rates inputstate
  let forces := ft_pairs.map Prod.fst
  let torques := ft_pairs.map Prod.snd
  { ab with body := AeroBody.step WI bstep ab.body forces torques delta_t }

/-- Sum of a list of vectors (net aggregate force or torque). -/
def vsum (l : List Vector3) : Vector3 := l.foldr Vector3.add Vector3.zero

/-- Observable events of one `AffectedBody::step` invocation, used to state
the query/invocation-order protocol. -/
inductive Event (I : Type) where
  | queryAirstate (a : AirState)
  | queryRates (r : Vector3)
  | effectorCall (idx : ℕ) (a : AirState) (r : Vector3) (inp : I)
  | bodyStep (forces torques : List Vector3) (delta_t : ℝ)

/-- Instrumented trace of `AffectedBody::step`, following the source's
control flow: the air-state query and the rates query happen first (on the
un-mutated state), then each effector is invoked once in collection order
with that snapshot, then the body is stepped with the collected lists. -/
noncomputable def AffectedBody.stepTrace {I W D : Type} (WI : WindModel W) (DI : DensityModel D)
    (ab : AffectedBody I W D) (delta_t : ℝ) (inputstate : I) : List (Event I) :=
  let airstate := AeroBody.get_airstate WI DI ab.body
  let rates := AeroBody.rates ab.body
  (Event.queryAirstate airstate :: Event.queryRates rates ::
    (List.range ab.effectors.length).map fun i => Event.effectorCall i airstate rates inputstate)
  ++ [Event.bodyStep (AffectedBody.step_forces WI DI ab inputstate)
      (AffectedBody.step_torques WI DI ab inputstate) delta_t]

/-- Unfolded form of `PowerWind.get_wind`. -/
theorem PowerWind.get_wind_eq (m : PowerWind) (pos : Vector3) :
    PowerWind.get_wind m pos =
      ⟨m.u_r * Real.rpow (pos.z / m.z_r) m.alpha * Real.cos (to_radians m.bearing),
        m.u_r * Real.rpow (pos.z / m.z_r) m.alpha * Real.sin (to_radians m.bearing), 0⟩ := rfl

/-- The two-argument arctangent lands in `(-π, π]`. -/
theorem atan2_range (y x : ℝ) : -Real.pi < atan2 y x ∧ atan2 y x ≤ Real.pi := by
  have hp := Real.pi_pos
  have h1 := Real.arctan_lt_pi_div_two (y / x)
  have h2 := Real.neg_pi_div_two_lt_arctan (y / x)
  unfold atan2
  split_ifs with hx hx2 hy hy2 hy3
  · exact ⟨by linarith, by linarith⟩
  · have hyx : y / x ≤ 0 := div_nonpos_of_nonneg_of_nonpos hy hx2.le
    have h3 : Real.arctan (y / x) ≤ 0 := by
      have h4 := Real.arctan_strictMono.monotone hyx
      rwa [Real.arctan_zero] at h4
    exact ⟨by linarith, by linarith⟩
  · have hyx : 0 < y / x := div_pos_iff.mpr (Or.inr ⟨by linarith, hx2⟩)
    have h3 : 0 < Real.arctan (y / x) := by
      have h4 := Real.arctan_strictMono hyx
      rwa [Real.arctan_zero] at h4
    exact ⟨by linarith, by linarith⟩
  · exact ⟨by linarith, by linarith⟩
  · exact ⟨by linarith, by linarith⟩
  · exact ⟨by linarith, by linarith⟩

/-- A rigid body at rest at the origin with identity attitude. -/
def zeroBody : RigidBody := ⟨Vector3.zero, Vector3.zero, Matrix3.id3, Vector3.zero⟩

/-- An `AeroBody` over the zero-wind constant model and standard density. -/
def calmAero : AeroBody ConstantWind StandardDensity :=
  ⟨zeroBody, ⟨Vector3.zero⟩, ⟨⟩⟩

/-- A concrete power-law wind model used as witness input. -/
def samplePowerWind : PowerWind := ⟨5, 10, 2, 45⟩

/-- **C4.** The `AirState` returned by `get_airstate` satisfies
`airspeed ≥ 0`, `q ≥ 0` whenever the density model returns a value `≥ 0`,
`beta ∈ [-π/2, π/2]`, and `alpha ∈ (-π, π]`. -/
theorem C4_airstate_invariants {W D : Type} (WI : WindModel W) (DI : DensityModel D)
    (ab : AeroBody W D)
    (hd : 0 ≤ DI.get_density ab.density_model ab.body.position) :
    0 ≤ (AeroBody.get_airstate WI DI ab).airspeed ∧
    0 ≤ (AeroBody.get_airstate WI DI ab).q ∧
    -(Real.pi / 2) ≤ (AeroBody.get_airstate WI DI ab).beta ∧
    (AeroBody.get_airstate WI DI ab).beta ≤ Real.pi / 2 ∧
    -Real.pi < (AeroBody.get_airstate WI DI ab).alpha ∧
    (AeroBody.get_airstate WI DI ab).alpha ≤ Real.pi := by
  have hpi := Real.pi_pos
  simp only [AeroBody.get_airstate]
  refine ⟨Real.sqrt_nonneg _, ?_, ?_, ?_, (atan2_range _ _).1, (atan2_range _ _).2⟩
  · have h5 : (0:ℝ) ≤ 0.5 := by norm_num
    exact mul_nonneg (mul_nonneg h5 hd) (sq_nonneg _)
  · split_ifs with h
    · exact Real.neg_pi_div_two_le_arcsin _
    · linarith
  · split_ifs with h
    · exact Real.arcsin_le_pi_div_two _
    · linarith

/-- Closed-form witness for `C4_airstate_invariants` on a concrete body. -/
theorem C4_airstate_invariants_witness :
    (0 ≤ StandardDensity.densityModel.get_density calmAero.density_model
        calmAero.body.position) ∧
    (0 ≤ (AeroBody.get_airstate ConstantWind.windModel StandardDensity.densityModel
        calmAero).airspeed ∧
    0 ≤ (AeroBody.get_airstate ConstantWind.windModel StandardDensity.densityModel
        calmAero).q ∧
    -(Real.pi / 2) ≤ (AeroBody.get_airstate ConstantWind.windModel StandardDensity.densityModel
        calmAero).beta ∧
    (AeroBody.get_airstate ConstantWind.windModel StandardDensity.densityModel
        calmAero).beta ≤ Real.pi / 2 ∧
    -Real.pi < (AeroBody.get_airstate ConstantWind.windModel StandardDensity.densityModel
        calmAero).alpha ∧
    (AeroBody.get_airstate ConstantWind.windModel StandardDensity.densityModel
        calmAero).alpha ≤ Real.pi) :=
  ⟨by norm_num [StandardDensity.densityModel, StandardDensity.ISA_STANDARD_DENSITY],
    C4_airstate_invariants ConstantWind.windModel StandardDensity.densityModel calmAero
      (by norm_num [StandardDensity.densityModel, StandardDensity.ISA_STANDARD_DENSITY])⟩

/-- **C7.** `PowerWind.get_wind` returns
`(speed·cos(bearing_rad), speed·sin(bearing_rad), 0)` with
`speed = u_r · (height/z_r)^alpha` and `height` the position's vertical
coordinate; the vertical component is always zero; and at `height = z_r`
(with `z_r ≠ 0` and a nonnegative reference speed) the horizontal speed
magnitude equals `u_r`, independent of the shear exponent `alpha`. -/
theorem C7_powerwind_profile (m : PowerWind) (pos : Vector3) (px py : ℝ)
    (hz : m.z_r ≠ 0) (hu : 0 ≤ m.u_r) :
    PowerWind.get_wind m pos =
      ⟨m.u_r * Real.rpow (pos.z / m.z_r) m.alpha * Real.cos (to_radians m.bearing),
        m.u_r * Real.rpow (pos.z / m.z_r) m.alpha * Real.sin (to_radians m.bearing), 0⟩ ∧
    (PowerWind.get_wind m pos).z = 0 ∧
    Real.sqrt ((PowerWind.get_wind m ⟨px, py, m.z_r⟩).x ^ 2 +
      (PowerWind.get_wind m ⟨px, py, m.z_r⟩).y ^ 2) = m.u_r := by
  refine ⟨PowerWind.get_wind_eq m pos, rfl, ?_⟩
  rw [PowerWind.get_wind_eq]
  have hone : Real.rpow ((Vector3.mk px py m.z_r).z / m.z_r) m.alpha = 1 := by
    show Real.rpow (m.z_r / m.z_r) m.alpha = 1
    rw [div_self hz]
    exact Real.one_rpow m.alpha
  rw [hone]
  have hcs := Real.sin_sq_add_cos_sq (to_radians m.bearing)
  have hsq : (m.u_r * 1 * Real.cos (to_radians m.bearing)) ^ 2 +
      (m.u_r * 1 * Real.sin (to_radians m.bearing)) ^ 2 = m.u_r ^ 2 := by
    linear_combination m.u_r ^ 2 * hcs
  rw [hsq, Real.sqrt_sq hu]

/-- Closed-form witness for `C7_powerwind_profile` at a concrete model. -/
theorem C7_powerwind_profile_witness :
    ((samplePowerWind.z_r ≠ 0 ∧ 0 ≤ samplePowerWind.u_r) ∧
    (PowerWind.get_wind samplePowerWind ⟨0, 0, 3⟩ =
      ⟨samplePowerWind.u_r * Real.rpow ((Vector3.mk 0 0 3).z / samplePowerWind.z_r)
          samplePowerWind.alpha * Real.cos (to_radians samplePowerWind.bearing),
        samplePowerWind.u_r * Real.rpow ((Vector3.mk 0 0 3).z / samplePowerWind.z_r)
          samplePowerWind.alpha * Real.sin (to_radians samplePowerWind.bearing), 0⟩ ∧
    (PowerWind.get_wind samplePowerWind ⟨0, 0, 3⟩).z = 0 ∧
    Real.sqrt ((PowerWind.get_wind samplePowerWind ⟨1, 2, samplePowerWind.z_r⟩).x ^ 2 +
      (PowerWind.get_wind samplePowerWind ⟨1, 2, samplePowerWind.z_r⟩).y ^ 2) =
        samplePowerWind.u_r)) :=
  ⟨⟨by norm_num [samplePowerWind], by norm_num [samplePowerWind]⟩,
    C7_powerwind_profile samplePowerWind ⟨0, 0, 3⟩ 1 2
      (by norm_num [samplePowerWind]) (by norm_num [samplePowerWind])⟩

/-- **C10.** The bearing of `PowerWind` is in degrees: `get_wind` multiplies
the stored bearing by `π/180` before taking cosine and sine; a bearing of
`90` yields wind purely along the East (second) axis. -/
theorem C10_bearing_in_degrees :
    (∀ (m : PowerWind) (pos : Vector3),
      PowerWind.get_wind m pos =
        ⟨m.u_r * Real.rpow (pos.z / m.z_r) m.alpha * Real.cos (m.bearing * (Real.pi / 180)),
          m.u_r * Real.rpow (pos.z / m.z_r) m.alpha * Real.sin (m.bearing * (Real.pi / 180)),
          0⟩) ∧
    (∀ (u z a : ℝ) (pos : Vector3),
      PowerWind.get_wind ⟨u, z, a, 90⟩ pos = ⟨0, u * Real.rpow (pos.z / z) a, 0⟩) := by
  constructor
  · intro m pos
    exact PowerWind.get_wind_eq m pos
  · intro u z a pos
    rw [PowerWind.get_wind_eq]
    have h90 : to_radians (PowerWind.mk u z a 90).bearing = Real.pi / 2 := by
      show (90 : ℝ) * (Real.pi / 180) = Real.pi / 2
      ring
    rw [h90, Real.cos_pi_div_two, Real.sin_pi_div_two]
    show Vector3.mk (u * Real.rpow (pos.z / z) a * 0) (u * Real.rpow (pos.z / z) a * 1) 0 = _
    rw [mul_zero, mul_one]

/-- Subtracting from the zero vector preserves the root-sum-square. -/
theorem sqrt_sq_sum_zero_sub (t : Vector3) :
    Real.sqrt ((Vector3.zero.sub t).x ^ 2 + (Vector3.zero.sub t).y ^ 2 +
      (Vector3.zero.sub t).z ^ 2) = t.norm := by
  show Real.sqrt ((0 - t.x) ^ 2 + (0 - t.y) ^ 2 + (0 - t.z) ^ 2) =
    Real.sqrt (t.x ^ 2 + t.y ^ 2 + t.z ^ 2)
  congr 1
  ring

/-- The identity matrix preserves the Euclidean norm. -/
theorem id3_norm_preserving : ∀ v : Vector3, (Matrix3.id3.mulVec v).norm = v.norm := by
  intro v
  show Real.sqrt ((1 * v.x + 0 * v.y + 0 * v.z) ^ 2 + (0 * v.x + 1 * v.y + 0 * v.z) ^ 2 +
      (0 * v.x + 0 * v.y + 1 * v.z) ^ 2) = Real.sqrt (v.x ^ 2 + v.y ^ 2 + v.z ^ 2)
  congr 1
  ring

/-- **C6.** For a body whose body-frame velocity is zero, and for every wind
vector returned by the wind model, `get_airstate` returns airspeed equal to
the Euclidean norm of that wind vector, because the body's rotation matrix
preserves the norm. -/
theorem C6_rest_airspeed_is_wind_norm {W D : Type} (WI : WindModel W) (DI : DensityModel D)
    (ab : AeroBody W D) (hv : ab.body.velocity = Vector3.zero)
    (hdcm : ∀ v : Vector3, (ab.body.dcm.mulVec v).norm = v.norm) :
    (AeroBody.get_airstate WI DI ab).airspeed =
      (WI.get_wind ab.wind_model ab.body.position).norm := by
  have hrel : AeroBody.current_body_wind WI ab =
      Vector3.zero.sub (ab.body.dcm.mulVec (WI.get_wind ab.wind_model ab.body.position)) := by
    rw [current_body_wind_def, hv]
  simp only [AeroBody.get_airstate, hrel]
  rw [sqrt_sq_sum_zero_sub]
  exact hdcm _

/-- An `AeroBody` at rest in a constant cross wind, used as witness input. -/
def windyAero : AeroBody ConstantWind StandardDensity :=
  ⟨zeroBody, ⟨⟨3, 4, 0⟩⟩, ⟨⟩⟩

/-- Closed-form witness for `C6_rest_airspeed_is_wind_norm`. -/
theorem C6_rest_airspeed_is_wind_norm_witness :
    (windyAero.body.velocity = Vector3.zero ∧
      (∀ v : Vector3, (windyAero.body.dcm.mulVec v).norm = v.norm)) ∧
    (AeroBody.get_airstate ConstantWind.windModel StandardDensity.densityModel
        windyAero).airspeed =
      (ConstantWind.windModel.get_wind windyAero.wind_model windyAero.body.position).norm :=
  ⟨⟨rfl, id3_norm_preserving⟩,
    C6_rest_airspeed_is_wind_norm ConstantWind.windModel StandardDensity.densityModel
      windyAero rfl id3_norm_preserving⟩

/-- The two-argument arctangent vanishes at the origin. -/
theorem atan2_zero_zero : atan2 0 0 = 0 := by
  unfold atan2
  norm_num

/-- **C8.** For a body whose body-frame velocity is zero, with a wind model
returning the zero vector at the body's position, `get_airstate` returns
`airspeed = 0`, `q = 0`, `alpha = 0`, `beta = 0`. -/
theorem C8_zero_wind_zero_airstate {W D : Type} (WI : WindModel W) (DI : DensityModel D)
    (ab : AeroBody W D) (hv : ab.body.velocity = Vector3.zero)
    (hw : WI.get_wind ab.wind_model ab.body.position = Vector3.zero) :
    (AeroBody.get_airstate WI DI ab).airspeed = 0 ∧
    (AeroBody.get_airstate WI DI ab).q = 0 ∧
    (AeroBody.get_airstate WI DI ab).alpha = 0 ∧
    (AeroBody.get_airstate WI DI ab).beta = 0 := by
  have hrel : AeroBody.current_body_wind WI ab = Vector3.zero := by
    rw [current_body_wind_def, hv, hw]
    show Vector3.mk
        (0 - (ab.body.dcm.r1.x * 0 + ab.body.dcm.r1.y * 0 + ab.body.dcm.r1.z * 0))
        (0 - (ab.body.dcm.r2.x * 0 + ab.body.dcm.r2.y * 0 + ab.body.dcm.r2.z * 0))
        (0 - (ab.body.dcm.r3.x * 0 + ab.body.dcm.r3.y * 0 + ab.body.dcm.r3.z * 0)) =
      Vector3.mk 0 0 0
    congr 1 <;> ring
  have h0 : (Vector3.zero.x ^ 2 + Vector3.zero.y ^ 2 + Vector3.zero.z ^ 2 : ℝ) = 0 := by
    show ((0:ℝ) ^ 2 + (0:ℝ) ^ 2 + (0:ℝ) ^ 2) = 0
    norm_num
  simp only [AeroBody.get_airstate, hrel]
  refine ⟨?_, ?_, ?_, ?_⟩
  · rw [h0, Real.sqrt_zero]
  · rw [h0, Real.sqrt_zero]
    ring
  · show atan2 (0:ℝ) (0:ℝ) = 0
    exact atan2_zero_zero
  · rw [h0, Real.sqrt_zero]
    simp

/-- Closed-form witness for `C8_zero_wind_zero_airstate` on the calm body. -/
theorem C8_zero_wind_zero_airstate_witness :
    (calmAero.body.velocity = Vector3.zero ∧
      ConstantWind.windModel.get_wind calmAero.wind_model calmAero.body.position =
        Vector3.zero) ∧
    ((AeroBody.get_airstate ConstantWind.windModel StandardDensity.densityModel
        calmAero).airspeed = 0 ∧
    (AeroBody.get_airstate ConstantWind.windModel StandardDensity.densityModel
        calmAero).q = 0 ∧
    (AeroBody.get_airstate ConstantWind.windModel StandardDensity.densityModel
        calmAero).alpha = 0 ∧
    (AeroBody.get_airstate ConstantWind.windModel StandardDensity.densityModel
        calmAero).beta = 0) :=
  ⟨⟨rfl, rfl⟩,
    C8_zero_wind_zero_airstate ConstantWind.windModel StandardDensity.densityModel
      calmAero rfl rfl⟩

/-- **C9.** `get_airstate` has no side effects: the state-passing embedding
of the borrowing method returns the receiver unchanged, and its result is
exactly the pure `get_airstate` value of the current state. -/
theorem C9_get_airstate_readonly {W D : Type} (WI : WindModel W) (DI : DensityModel D)
    (ab : AeroBody W D) :
    (AeroBody.get_airstate_call WI DI ab).2 = ab ∧
    (AeroBody.get_airstate_call WI DI ab).1 = AeroBody.get_airstate WI DI ab :=
  ⟨rfl, rfl⟩

/-- A trivial external rigid-body transition (identity), used as witness input. -/
def trivialStep : RigidBody → List Vector3 → List Vector3 → ℝ → RigidBody :=
  fun b _forces _torques _delta_t => b

/-- An `AffectedBody` with an empty effector collection, used as witness input. -/
def emptyAffected : AffectedBody Unit ConstantWind StandardDensity := ⟨calmAero, []⟩

/-- **C5.** For an `AffectedBody` whose effector collection is empty, the
net (summed) force and net torque passed down by `step` are both the zero
vector, and `step` runs to completion, calling `AeroBody::step` with the
two empty lists and the same `delta_t`. -/
theorem C5_empty_effectors_zero_net {I W D : Type} (WI : WindModel W) (DI : DensityModel D)
    (bstep : RigidBody → List Vector3 → List Vector3 → ℝ → RigidBody)
    (ab : AffectedBody I W D) (delta_t : ℝ) (inputstate : I)
    (h : ab.effectors = []) :
    vsum (AffectedBody.step_forces WI DI ab inputstate) = Vector3.zero ∧
    vsum (AffectedBody.step_torques WI DI ab inputstate) = Vector3.zero ∧
    AffectedBody.step WI DI bstep ab delta_t inputstate =
      { ab with body := AeroBody.step WI bstep ab.body [] [] delta_t } := by
  unfold AffectedBody.step_forces AffectedBody.step_torques AffectedBody.step
  rw [h]
  exact ⟨rfl, rfl, rfl⟩

/-- Closed-form witness for `C5_empty_effectors_zero_net`. -/
theorem C5_empty_effectors_zero_net_witness :
    (emptyAffected.effectors = []) ∧
    (vsum (AffectedBody.step_forces ConstantWind.windModel StandardDensity.densityModel
        emptyAffected ()) = Vector3.zero ∧
    vsum (AffectedBody.step_torques ConstantWind.windModel StandardDensity.densityModel
        emptyAffected ()) = Vector3.zero ∧
    AffectedBody.step ConstantWind.windModel StandardDensity.densityModel trivialStep
        emptyAffected 1 () =
      { emptyAffected with
        body := AeroBody.step ConstantWind.windModel trivialStep emptyAffected.body [] [] 1 }) :=
  ⟨rfl,
    C5_empty_effectors_zero_net ConstantWind.windModel StandardDensity.densityModel
      trivialStep emptyAffected 1 () rfl⟩

/-- An effector producing a constant unit forward force and zero torque. -/
def constEffector : AirState → Vector3 → Unit → Vector3 × Vector3 :=
  fun _airstate _rates _inputstate => (⟨1, 0, 0⟩, Vector3.zero)

/-- An `AffectedBody` carrying two copies of `constEffector`. -/
def twoEffectorBody : AffectedBody Unit ConstantWind StandardDensity :=
  ⟨calmAero, [constEffector, constEffector]⟩

/-- **C2, counterexample.** With two effectors, `AffectedBody::step` does
not pass a single aggregate force to `AeroBody::step`: the forces argument
it builds is not the one-element list holding the summed effector forces. -/
theorem C2_counterexample :
    ¬ (AffectedBody.step_forces ConstantWind.windModel StandardDensity.densityModel
        twoEffectorBody () =
      [vsum ((twoEffectorBody.effectors.map fun e =>
          e (AeroBody.get_airstate ConstantWind.windModel StandardDensity.densityModel
              twoEffectorBody.body) (AeroBody.rates twoEffectorBody.body) ()).map Prod.fst)]) := by
  intro hcl
  have hlen := congrArg List.length hcl
  simp only [AffectedBody.step_forces, twoEffectorBody, List.length_map,
    List.length_cons, List.length_nil, List.length_singleton] at hlen
  omega

/-- **C2, amended.** `AffectedBody::step` collects each effector's force
into a list and each effector's torque into a list (two projections of the
per-effector pairs, in effector order) and passes these two lists — not two
summed aggregates — to `AeroBody::step` with the same `delta_t`. -/
theorem C2_amended_step_passes_lists {I W D : Type} (WI : WindModel W) (DI : DensityModel D)
    (bstep : RigidBody → List Vector3 → List Vector3 → ℝ → RigidBody)
    (ab : AffectedBody I W D) (delta_t : ℝ) (inputstate : I) :
    AffectedBody.step WI DI bstep ab delta_t inputstate =
      { ab with
        body :=
          AeroBody.step WI bstep ab.body (AffectedBody.step_forces WI DI ab inputstate)
            (AffectedBody.step_torques WI DI ab inputstate) delta_t } ∧
    AffectedBody.step_forces WI DI ab inputstate =
      ab.effectors.map (fun e =>
        (e (AeroBody.get_airstate WI DI ab.body) (AeroBody.rates ab.body) inputstate).1) ∧
    AffectedBody.step_torques WI DI ab inputstate =
      ab.effectors.map (fun e =>
        (e (AeroBody.get_airstate WI DI ab.body) (AeroBody.rates ab.body) inputstate).2) := by
  refine ⟨rfl, ?_, ?_⟩
  · unfold AffectedBody.step_forces
    rw [List.map_map]
    rfl
  · unfold AffectedBody.step_torques
    rw [List.map_map]
    rfl

/-- Count of a predicate over a mapped list whose images all satisfy it. -/
theorem countP_map_true {α β : Type} (p : β → Bool) (f : α → β) (l : List α)
    (h : ∀ a, p (f a) = true) : (l.map f).countP p = l.length := by
  induction l with
  | nil => rfl
  | cons a t ih => simp [List.countP_cons, h, ih]

/-- Discriminator for air-state query events. -/
def Event.isQueryAirstate {I : Type} : Event I → Bool
  | .queryAirstate _ => true
  | _ => false

/-- Discriminator for rates query events. -/
def Event.isQueryRates {I : Type} : Event I → Bool
  | .queryRates _ => true
  | _ => false

/-- Discriminator for effector invocation events. -/
def Event.isEffectorCall {I : Type} : Event I → Bool
  | .effectorCall _ _ _ _ => true
  | _ => false

/-- **C3.** One invocation of `AffectedBody::step` queries the air state
exactly once and the body rates exactly once, both at the head of the trace
(on the pre-step state, before any mutation); invokes every effector
exactly once, in collection order, each with that same air state, same
rates and same control input; and ends with the single body-step call. -/
theorem C3_single_snapshot_protocol {I W D : Type} (WI : WindModel W) (DI : DensityModel D)
    (ab : AffectedBody I W D) (delta_t : ℝ) (inputstate : I) :
    ((AffectedBody.stepTrace WI DI ab delta_t inputstate).countP Event.isQueryAirstate = 1) ∧
    ((AffectedBody.stepTrace WI DI ab delta_t inputstate).countP Event.isQueryRates = 1) ∧
    ((AffectedBody.stepTrace WI DI ab delta_t inputstate).countP Event.isEffectorCall =
      ab.effectors.length) ∧
    ((AffectedBody.stepTrace WI DI ab delta_t inputstate).get? 0 =
      some (Event.queryAirstate (AeroBody.get_airstate WI DI ab.body))) ∧
    ((AffectedBody.stepTrace WI DI ab delta_t inputstate).get? 1 =
      some (Event.queryRates (AeroBody.rates ab.body))) ∧
    (∀ i, i < ab.effectors.length →
      (AffectedBody.stepTrace WI DI ab delta_t inputstate).get? (i + 2) =
        some (Event.effectorCall i (AeroBody.get_airstate WI DI ab.body)
          (AeroBody.rates ab.body) inputstate)) ∧
    ((AffectedBody.stepTrace WI DI ab delta_t inputstate).getLast? =
      some (Event.bodyStep (AffectedBody.step_forces WI DI ab inputstate)
        (AffectedBody.step_torques WI DI ab inputstate) delta_t)) ∧
    ((AffectedBody.stepTrace WI DI ab delta_t inputstate).length =
      ab.effectors.length + 3) := by
  unfold AffectedBody.stepTrace
  refine ⟨?_, ?_, ?_, ?_, ?_, ?_, ?_, ?_⟩
  · simp [List.countP_append, List.countP_cons, Event.isQueryAirstate, Event.isQueryRates,
      List.countP_eq_zero, List.mem_map]
  · simp [List.countP_append, List.countP_cons, Event.isQueryAirstate, Event.isQueryRates,
      List.countP_eq_zero, List.mem_map]
  · rw [List.countP_append, List.countP_cons, List.countP_cons,
      countP_map_true _ _ _ (fun a => rfl), List.length_range]
    simp [Event.isEffectorCall, List.countP_cons]
  · rfl
  · rfl
  · intro i hi
    show (((List.range ab.effectors.length).map fun j =>
        Event.effectorCall j (AeroBody.get_airstate WI DI ab.body) (AeroBody.rates ab.body)
          inputstate) ++
      [Event.bodyStep (AffectedBody.step_forces WI DI ab inputstate)
        (AffectedBody.step_torques WI DI ab inputstate) delta_t]).get? i =
      some (Event.effectorCall i (AeroBody.get_airstate WI DI ab.body)
        (AeroBody.rates ab.body) inputstate)
    rw [List.get?_append (by simpa using hi), List.get?_map, List.get?_range hi]
    rfl
  · rw [List.getLast?_concat]
  · simp [List.length_append, List.length_map, List.length_range]

/-- Closed-form witness for `C3_single_snapshot_protocol` on a two-effector body. -/
theorem C3_single_snapshot_protocol_witness :
    ((AffectedBody.stepTrace ConstantWind.windModel StandardDensity.densityModel
        twoEffectorBody 1 ()).countP Event.isQueryAirstate = 1) ∧
    ((AffectedBody.stepTrace ConstantWind.windModel StandardDensity.densityModel
        twoEffectorBody 1 ()).countP Event.isQueryRates = 1) ∧
    ((AffectedBody.stepTrace ConstantWind.windModel StandardDensity.densityModel
        twoEffectorBody 1 ()).countP Event.isEffectorCall =
      twoEffectorBody.effectors.length) ∧
    ((AffectedBody.stepTrace ConstantWind.windModel StandardDensity.densityModel
        twoEffectorBody 1 ()).get? 0 =
      some (Event.queryAirstate (AeroBody.get_airstate ConstantWind.windModel
        StandardDensity.densityModel twoEffectorBody.body))) ∧
    ((AffectedBody.stepTrace ConstantWind.windModel StandardDensity.densityModel
        twoEffectorBody 1 ()).get? 1 =
      some (Event.queryRates (AeroBody.rates twoEffectorBody.body))) ∧
    (∀ i, i < twoEffectorBody.effectors.length →
      (AffectedBody.stepTrace ConstantWind.windModel StandardDensity.densityModel
          twoEffectorBody 1 ()).get? (i + 2) =
        some (Event.effectorCall i (AeroBody.get_airstate ConstantWind.windModel
          StandardDensity.densityModel twoEffectorBody.body)
          (AeroBody.rates twoEffectorBody.body) ())) ∧
    ((AffectedBody.stepTrace ConstantWind.windModel StandardDensity.densityModel
        twoEffectorBody 1 ()).getLast? =
      some (Event.bodyStep (AffectedBody.step_forces ConstantWind.windModel
          StandardDensity.densityModel twoEffectorBody ())
        (AffectedBody.step_torques ConstantWind.windModel StandardDensity.densityModel
          twoEffectorBody ()) 1)) ∧
    ((AffectedBody.stepTrace ConstantWind.windModel StandardDensity.densityModel
        twoEffectorBody 1 ()).length = twoEffectorBody.effectors.length + 3) :=
  C3_single_snapshot_protocol ConstantWind.windModel StandardDensity.densityModel
    twoEffectorBody 1 ()

end Aerso
